import Mathlib

set_option maxRecDepth 100000

/-!
Verification development for `scripts/setup_eclipse.py`, a script that
generates Eclipse project-configuration files (`.classpath`, `.project`,
`.factorypath` and two `.settings` preference files) for a bazel-managed
project.

The shallow embedding below models:
* the pure string-templating helpers (`classpath_entry_xml`, `classpath_xml`,
  `build_project`, `factorypath_entry_xml`, `factorypath_xml`) directly as
  Lean functions on `String`;
* the subprocess `bazel info` call through an oracle
  `oracle : String → List String` giving, for each query key, the list of
  lines the subprocess writes to standard output (`bazel_info` then strips
  each line and indexes the first one, `Option.none` standing for the
  Python `IndexError` on an empty list);
* the filesystem as a record `FS` of a partial map from path strings to file
  contents plus a list of existing directories; `main` becomes `mainRun`,
  an `Except`-valued state transformer that also returns the chronological
  list of (path, content) write events.  The three `bazel build` invocations
  performed by `build_dependencies` only affect the external build tool, not
  the generated files, and are modelled as succeeding; the filesystem state
  at the moment of an aborting error is not modelled.
-/

/-- The whitespace characters removed by Python `str.strip()`. -/
def isPySpace (c : Char) : Bool :=
  c == ' ' || c == '\t' || c == '\n' || c == '\r' || c == '\x0b' || c == '\x0c'

/-- Python `str.strip()`: remove leading and trailing whitespace. -/
def pyStrip (s : String) : String :=
  String.mk (((s.data.dropWhile isPySpace).reverse.dropWhile isPySpace).reverse)

/-- `bazel_info(key)`: run `bazel info key`, collect the stdout lines, strip
each line, and index the first element of the resulting list.  `oracle key`
is the list of raw lines the subprocess produces; `none` models the
`IndexError` raised by `result[0]` when that list is empty. -/
def bazel_info (oracle : String → List String) (key : String) : Option String :=
  ((oracle key).map fun line => pyStrip line).head?

/-- One entry record consumed by `classpath_xml`. -/
structure ClasspathEntry where
  kind : String
  path : String
deriving DecidableEq

/-- One entry record consumed by `factorypath_xml`. -/
structure FactorypathEntry where
  kind : String
  entry_id : String
deriving DecidableEq

/-- `classpath_entry_xml(kind, path)`. -/
def classpath_entry_xml (kind path : String) : String :=
  "<classpathentry kind=\"" ++ kind ++ "\" path=\"" ++ path ++ "\"/>"

/-- `classpath_xml(entries)`. -/
def classpath_xml (entries : List ClasspathEntry) : String :=
  let entries_xml := String.intercalate "\n"
    (entries.map fun entry => "  " ++ classpath_entry_xml entry.kind entry.path)
  "<?xml version=\"1.0\" encoding=\"UTF-8\"?>\n<classpath>\n"
    ++ entries_xml ++ "\n</classpath>"

/-- The six classpath entries assembled by `build_classpath` from the
`bazel info bazel-genfiles` result. -/
def classpathEntriesOf (bazel_genfiles : String) : List ClasspathEntry :=
  [⟨"con", "org.eclipse.jdt.launching.JRE_CONTAINER"⟩,
   ⟨"src", "java"⟩,
   ⟨"src", "javatests"⟩,
   ⟨"src", "bazel-genfiles/java"⟩,
   ⟨"lib", bazel_genfiles ++ "/java/google/registry/eclipse/eclipse_deps.jar"⟩,
   ⟨"output", "bin"⟩]

/-- `build_classpath()`; `none` propagates a failed `bazel info`. -/
def build_classpath (oracle : String → List String) : Option String :=
  (bazel_info oracle "bazel-genfiles").map fun bazel_genfiles =>
    classpath_xml (classpathEntriesOf bazel_genfiles)

/-- The part of the `.project` template before the `{project_name}` hole. -/
def projectTemplatePre : String :=
  "<?xml version=\"1.0\" encoding=\"UTF-8\"?>\n<projectDescription>\n    <name>"

/-- The part of the `.project` template after the `{project_name}` hole. -/
def projectTemplatePost : String :=
  "</name>\n    <comment>\n    </comment>\n    <projects>\n    </projects>\n    <buildSpec>\n        <buildCommand>\n            <name>org.python.pydev.PyDevBuilder</name>\n            <arguments>\n            </arguments>\n        </buildCommand>\n        <buildCommand>\n            <name>org.eclipse.jdt.core.javabuilder</name>\n            <arguments>\n            </arguments>\n        </buildCommand>\n    </buildSpec>\n    <natures>\n        <nature>org.eclipse.jdt.core.javanature</nature>\n        <nature>org.python.pydev.pythonNature</nature>\n    </natures>\n</projectDescription>"

/-- `build_project(project_name)`: the fixed template with the single
`{project_name}` substitution point filled in. -/
def build_project (project_name : String) : String :=
  projectTemplatePre ++ project_name ++ projectTemplatePost

/-- `factorypath_entry_xml(kind, entry_id)`. -/
def factorypath_entry_xml (kind entry_id : String) : String :=
  "<factorypathentry kind=\"" ++ kind ++ "\" id=\"" ++ entry_id
    ++ "\" enabled=\"true\" runInBatchMode=\"false\"/>"

/-- `factorypath_xml(entries)`. -/
def factorypath_xml (entries : List FactorypathEntry) : String :=
  let entries_xml := String.intercalate "\n"
    (entries.map fun entry => "  " ++ factorypath_entry_xml entry.kind entry.entry_id)
  "<factorypath>\n" ++ entries_xml ++ "\n</factorypath>"

/-- `os.path.join(a, b)` for POSIX paths, two components. -/
def pathJoin (a b : String) : String :=
  if b.data.head? = some '/' then b
  else if a = "" then a ++ b
  else if a.data.getLast? = some '/' then a ++ b
  else a ++ "/" ++ b

/-- The two factorypath entries assembled by `build_factorypath` from the
`bazel info bazel-bin` result. -/
def factorypathEntriesOf (bazel_bin : String) : List FactorypathEntry :=
  [⟨"PLUGIN", "org.eclipse.jst.ws.annotations.core"⟩,
   ⟨"EXTJAR",
    pathJoin bazel_bin
      "java/google/registry/eclipse/annotation_processors_ide_deploy.jar"⟩]

/-- `build_factorypath()`; `none` propagates a failed `bazel info`. -/
def build_factorypath (oracle : String → List String) : Option String :=
  (bazel_info oracle "bazel-bin").map fun bazel_bin =>
    factorypath_xml (factorypathEntriesOf bazel_bin)

/-- Filesystem model: file contents keyed by path string, plus the list of
existing directories. -/
@[ext]
structure FS where
  files : String → Option String
  dirs : List String

/-- `open(p, "w")` followed by a full write: overwrite the file at `p`. -/
def fsWrite (fs : FS) (p c : String) : FS :=
  { fs with files := fun q => if q = p then some c else fs.files q }

/-- `os.path.exists(p)`: true when a directory or a file named `p` exists. -/
def fsExists (fs : FS) (p : String) : Bool :=
  decide (p ∈ fs.dirs) || (fs.files p).isSome

/-- `os.makedirs(d)`: raises `FileExistsError` when `d` already exists. -/
def makedirs (fs : FS) (d : String) : Except String FS :=
  if d ∈ fs.dirs then Except.error "FileExistsError"
  else Except.ok { fs with dirs := d :: fs.dirs }

/-- `sys.argv[1] if len(sys.argv) > 1 else "domain-registry"`; the head of
`argv` is the script name. -/
def projectNameOf (argv : List String) : String :=
  match argv with
  | _ :: name :: _ => name
  | _ => "domain-registry"

/-- The content written to `.settings/org.eclipse.jdt.core.prefs`. -/
def jdtCorePrefs : String :=
  String.intercalate "\n"
    ["eclipse.preferences.version=1",
     "org.eclipse.jdt.core.compiler.processAnnotations=enabled"]

/-- The content written to `.settings/org.eclipse.jdt.apt.core.prefs`. -/
def aptCorePrefs : String :=
  String.intercalate "\n"
    ["eclipse.preferences.version=1",
     "org.eclipse.jdt.apt.aptEnabled=true",
     "org.eclipse.jdt.apt.genSrcDir=autogenerated",
     "org.eclipse.jdt.apt.reconcileEnabled=true"]

/-- Modelled from the spec (for refinement comparison only, claim about
`bazel_info`): strip each captured output line and return the first
non-empty one. -/
def firstNonemptyStrippedLine (lines : List String) : Option String :=
  ((lines.map fun l => pyStrip l).filter fun l => l != "").head?

/-- The XML version header that opens the classpath and project documents. -/
def xmlVersionHeader : String :=
  "<?xml version=\"1.0\" encoding=\"UTF-8\"?>\n"

/-- The number of XML attributes of a rendered single-element string, counted
as occurrences of the equals sign; exact whenever the attribute values
themselves contain no equals sign. -/
def attrCount (s : String) : Nat :=
  s.data.count '='

/-- Concrete oracle for witnesses: every query prints the single line
`/ws`. -/
def wsOracle : String → List String := fun _ => ["/ws"]

/-- Concrete oracle whose `info` output starts with a blank line before a
non-empty one. -/
def blankFirstOracle : String → List String := fun _ => [" \n", "foo\n"]

/-- Concrete oracle whose `info` subcommand produces no output at all. -/
def emptyOracle : String → List String := fun _ => []

/-- Concrete starting filesystem: no files, and an already-existing
`.settings` directory. -/
def wsFS : FS := { files := fun _ => none, dirs := [".settings"] }

/-- `main()`: sequence the queries, document builds and file writes.  Returns
the final filesystem together with the chronological list of
(path, content) write events; `Except.error` models the uncaught Python
exception aborting the process. -/
def mainRun (oracle : String → List String) (argv : List String) (fs0 : FS) :
    Except String (FS × List (String × String)) :=
  match bazel_info oracle "workspace" with
  | none => Except.error "IndexError"
  | some workspace_directory =>
    match build_classpath oracle with
    | none => Except.error "IndexError"
    | some classpath =>
      let fs1 := fsWrite fs0 (pathJoin workspace_directory ".classpath") classpath
      let project := build_project (projectNameOf argv)
      let fs2 := fsWrite fs1 (pathJoin workspace_directory ".project") project
      match build_factorypath oracle with
      | none => Except.error "IndexError"
      | some factorypath =>
        let fs3 := fsWrite fs2 (pathJoin workspace_directory ".factorypath") factorypath
        match (if fsExists fs3 ".settings" then Except.ok fs3
               else makedirs fs3 ".settings") with
        | Except.error e => Except.error e
        | Except.ok fs4 =>
          let fs5 := fsWrite fs4
            (pathJoin (pathJoin workspace_directory ".settings")
              "org.eclipse.jdt.core.prefs") jdtCorePrefs
          let fs6 := fsWrite fs5
            (pathJoin (pathJoin workspace_directory ".settings")
              "org.eclipse.jdt.apt.core.prefs") aptCorePrefs
          Except.ok (fs6,
            [(pathJoin workspace_directory ".classpath", classpath),
             (pathJoin workspace_directory ".project", project),
             (pathJoin workspace_directory ".factorypath", factorypath),
             (pathJoin (pathJoin workspace_directory ".settings")
               "org.eclipse.jdt.core.prefs", jdtCorePrefs),
             (pathJoin (pathJoin workspace_directory ".settings")
               "org.eclipse.jdt.apt.core.prefs", aptCorePrefs)])

/-! ### Helper lemmas about `mainRun` -/

/-- The five write events of a successful run, as a function of the three
stripped query results and the project name. -/
def mainTrace (ws gen bin name : String) : List (String × String) :=
  [(pathJoin ws ".classpath", classpath_xml (classpathEntriesOf gen)),
   (pathJoin ws ".project", build_project name),
   (pathJoin ws ".factorypath", factorypath_xml (factorypathEntriesOf bin)),
   (pathJoin (pathJoin ws ".settings") "org.eclipse.jdt.core.prefs", jdtCorePrefs),
   (pathJoin (pathJoin ws ".settings") "org.eclipse.jdt.apt.core.prefs", aptCorePrefs)]

/-- The filesystem produced by a successful run. -/
def mainFS (ws gen bin name : String) (fs0 : FS) : FS :=
  let fs1 := fsWrite fs0 (pathJoin ws ".classpath") (classpath_xml (classpathEntriesOf gen))
  let fs2 := fsWrite fs1 (pathJoin ws ".project") (build_project name)
  let fs3 := fsWrite fs2 (pathJoin ws ".factorypath") (factorypath_xml (factorypathEntriesOf bin))
  let fs4 := if fsExists fs3 ".settings" then fs3
             else { fs3 with dirs := ".settings" :: fs3.dirs }
  let fs5 := fsWrite fs4
    (pathJoin (pathJoin ws ".settings") "org.eclipse.jdt.core.prefs") jdtCorePrefs
  fsWrite fs5
    (pathJoin (pathJoin ws ".settings") "org.eclipse.jdt.apt.core.prefs") aptCorePrefs

lemma bazel_info_cons (oracle : String → List String) (key w : String) (tl : List String)
    (h : oracle key = w :: tl) : bazel_info oracle key = some (pyStrip w) := by
  simp [bazel_info, h]

lemma settingsStep (fs : FS) :
    (if fsExists fs ".settings" then Except.ok fs else makedirs fs ".settings")
      = (Except.ok
          (if fsExists fs ".settings" then fs
           else { fs with dirs := ".settings" :: fs.dirs }) : Except String FS) := by
  by_cases h : fsExists fs ".settings"
  · simp [h]
  · have hmem : ¬ (".settings" ∈ fs.dirs) := by
      intro hm
      exact h (by simp [fsExists, hm])
    simp [h, makedirs, hmem]

lemma mainRun_eq (oracle : String → List String) (argv : List String) (fs0 : FS)
    (w g b : String) (tw tg tb : List String)
    (hw : oracle "workspace" = w :: tw)
    (hg : oracle "bazel-genfiles" = g :: tg)
    (hb : oracle "bazel-bin" = b :: tb) :
    mainRun oracle argv fs0 =
      Except.ok (mainFS (pyStrip w) (pyStrip g) (pyStrip b) (projectNameOf argv) fs0,
        mainTrace (pyStrip w) (pyStrip g) (pyStrip b) (projectNameOf argv)) := by
  have hw2 := bazel_info_cons oracle "workspace" w tw hw
  have hg2 : build_classpath oracle
      = some (classpath_xml (classpathEntriesOf (pyStrip g))) := by
    rw [build_classpath, bazel_info_cons oracle "bazel-genfiles" g tg hg]
    rfl
  have hb2 : build_factorypath oracle
      = some (factorypath_xml (factorypathEntriesOf (pyStrip b))) := by
    rw [build_factorypath, bazel_info_cons oracle "bazel-bin" b tb hb]
    rfl
  simp only [mainRun, hw2, hg2, hb2, settingsStep, mainFS, mainTrace]

lemma mainFS_dirs (ws gen bin name : String) (fs0 : FS) (h : ".settings" ∈ fs0.dirs) :
    (mainFS ws gen bin name fs0).dirs = fs0.dirs := by
  simp [mainFS, fsWrite, fsExists, h]

lemma mainFS_idem (ws gen bin name : String) (fs0 : FS) (h : ".settings" ∈ fs0.dirs) :
    mainFS ws gen bin name (mainFS ws gen bin name fs0) = mainFS ws gen bin name fs0 := by
  apply FS.ext
  · funext q
    simp only [mainFS, fsWrite, fsExists]
    by_cases h5 : q = pathJoin (pathJoin ws ".settings") "org.eclipse.jdt.apt.core.prefs" <;>
      by_cases h4 : q = pathJoin (pathJoin ws ".settings") "org.eclipse.jdt.core.prefs" <;>
      by_cases h3 : q = pathJoin ws ".factorypath" <;>
      by_cases h2 : q = pathJoin ws ".project" <;>
      by_cases h1 : q = pathJoin ws ".classpath" <;>
      simp [h, h1, h2, h3, h4, h5]
  · simp [mainFS, fsWrite, fsExists, h]

/-! ### Claim theorems -/

/-- Claim C1, counterexample: `bazel_info` does not return the first
non-empty stripped line.  With an output whose first line is blank and whose
second line is `foo`, it returns the stripped first line (the empty string),
not `foo`. -/
theorem C1_bazel_info_counterexample :
    bazel_info blankFirstOracle "workspace" = some ""
      ∧ firstNonemptyStrippedLine (blankFirstOracle "workspace") = some "foo"
      ∧ bazel_info blankFirstOracle "workspace"
          ≠ firstNonemptyStrippedLine (blankFirstOracle "workspace") :=
  ⟨by decide, by decide, by decide⟩

/-- Claim C1, amended: when the `info` subcommand produces at least one
output line, `bazel_info` captures standard output, splits it into lines,
strips whitespace from each line, and returns the stripped first line
(whether or not it is empty). -/
theorem C1_bazel_info_first_line (oracle : String → List String) (key w : String)
    (tl : List String) (h : oracle key = w :: tl) :
    bazel_info oracle key = some (pyStrip w) :=
  bazel_info_cons oracle key w tl h

/-- Witness for the amended C1 theorem at a concrete oracle. -/
theorem C1_bazel_info_first_line_witness :
    bazel_info (fun _ => ["  bazel-out\n"]) "workspace" = some "bazel-out" := by
  have h := C1_bazel_info_first_line (fun _ => ["  bazel-out\n"]) "workspace"
    "  bazel-out\n" [] rfl
  rw [h]
  decide

/-- Claim C8: when the `info` subcommand produces no output lines,
`bazel_info` fails (the model returns `none`, standing for the `IndexError`
raised by `result[0]`) instead of returning a result string. -/
theorem C8_bazel_info_empty (oracle : String → List String) (key : String)
    (h : oracle key = []) : bazel_info oracle key = none := by
  simp [bazel_info, h]

/-- Witness for the C8 theorem at a concrete oracle with empty output. -/
theorem C8_bazel_info_empty_witness : bazel_info emptyOracle "workspace" = none :=
  C8_bazel_info_empty emptyOracle "workspace" rfl

/-- Claim C9: the empty entry list joins to the empty body string, and each
assembler returns exactly its fixed envelope wrapped around that empty body
(with the envelope's own newline on either side of it). -/
theorem C9_empty_entry_list :
    String.intercalate "\n"
        (([] : List ClasspathEntry).map fun e => "  " ++ classpath_entry_xml e.kind e.path)
        = ""
      ∧ classpath_xml []
          = "<?xml version=\"1.0\" encoding=\"UTF-8\"?>\n<classpath>\n\n</classpath>"
      ∧ factorypath_xml [] = "<factorypath>\n\n</factorypath>" :=
  ⟨rfl, by decide, by decide⟩

/-- Claim C2: for a list of N entry records, each assembler returns exactly
one opening envelope tag, then the N rendered entry elements, each preceded
by two-space indentation and separated by single newlines, then exactly one
closing envelope tag. -/
theorem C2_document_shape (ce : List ClasspathEntry) (fe : List FactorypathEntry) :
    classpath_xml ce
        = "<?xml version=\"1.0\" encoding=\"UTF-8\"?>\n<classpath>\n"
          ++ String.intercalate "\n"
              ((ce.map fun e => classpath_entry_xml e.kind e.path).map
                fun line => "  " ++ line)
          ++ "\n</classpath>"
      ∧ ((ce.map fun e => classpath_entry_xml e.kind e.path).map
          fun line => "  " ++ line).length = ce.length
      ∧ factorypath_xml fe
          = "<factorypath>\n"
            ++ String.intercalate "\n"
                ((fe.map fun e => factorypath_entry_xml e.kind e.entry_id).map
                  fun line => "  " ++ line)
            ++ "\n</factorypath>"
      ∧ ((fe.map fun e => factorypath_entry_xml e.kind e.entry_id).map
          fun line => "  " ++ line).length = fe.length := by
  refine ⟨?_, by simp, ?_, by simp⟩
  · simp only [classpath_xml, List.map_map]
    rfl
  · simp only [factorypath_xml, List.map_map]
    rfl

/-- Claim C3, counterexample: the factorypath entry renderer does not emit
an element with two attributes; on the plugin record actually used by the
script, the rendered element carries four attributes (`kind`, `id`, and the
fixed `enabled` and `runInBatchMode`). -/
theorem C3_two_attributes_counterexample :
    attrCount (factorypath_entry_xml "PLUGIN" "org.eclipse.jst.ws.annotations.core") = 4
      ∧ attrCount (factorypath_entry_xml "PLUGIN" "org.eclipse.jst.ws.annotations.core")
          ≠ 2 :=
  ⟨by decide, by decide⟩

/-- Claim C3, amended: each renderer returns one XML element as a
single-line string with the attribute values inserted verbatim (no
escaping); the classpath element has two attributes while the factorypath
element has four (the record's two plus the fixed `enabled="true"` and
`runInBatchMode="false"`), and the concrete example renders exactly as the
spec displays it. -/
theorem C3_entry_renderers (kind path entry_id : String) :
    classpath_entry_xml kind path
        = "<classpathentry kind=\"" ++ kind ++ "\" path=\"" ++ path ++ "\"/>"
      ∧ factorypath_entry_xml kind entry_id
          = "<factorypathentry kind=\"" ++ kind ++ "\" id=\"" ++ entry_id
              ++ "\" enabled=\"true\" runInBatchMode=\"false\"/>"
      ∧ (attrCount kind = 0 → attrCount path = 0 →
          attrCount (classpath_entry_xml kind path) = 2)
      ∧ (attrCount kind = 0 → attrCount entry_id = 0 →
          attrCount (factorypath_entry_xml kind entry_id) = 4)
      ∧ (kind.data.count '\n' = 0 → path.data.count '\n' = 0 →
          (classpath_entry_xml kind path).data.count '\n' = 0)
      ∧ (kind.data.count '\n' = 0 → entry_id.data.count '\n' = 0 →
          (factorypath_entry_xml kind entry_id).data.count '\n' = 0)
      ∧ classpath_entry_xml "con" "X" = "<classpathentry kind=\"con\" path=\"X\"/>" := by
  refine ⟨rfl, rfl, ?_, ?_, ?_, ?_, by decide⟩
  · intro h1 h2
    simp only [attrCount] at h1 h2
    simp only [attrCount, classpath_entry_xml, String.data_append,
      List.count_append, h1, h2]
    decide
  · intro h1 h2
    simp only [attrCount] at h1 h2
    simp only [attrCount, factorypath_entry_xml, String.data_append,
      List.count_append, h1, h2]
    decide
  · intro h1 h2
    simp only [classpath_entry_xml, String.data_append, List.count_append, h1, h2]
    decide
  · intro h1 h2
    simp only [factorypath_entry_xml, String.data_append, List.count_append, h1, h2]
    decide

/-- Witness for the amended C3 theorem: attribute counts at the concrete
entries rendered by the script. -/
theorem C3_entry_renderers_witness :
    attrCount (classpath_entry_xml "con" "X") = 2
      ∧ attrCount (factorypath_entry_xml "PLUGIN" "p") = 4 := by
  have h := C3_entry_renderers "con" "X" "p"
  exact ⟨h.2.2.1 (by decide) (by decide), h.2.2.2.1 (by decide) (by decide)⟩

/-- Claim C4, counterexample: the claim asserts that both assemblers wrap
their entries in an envelope that includes an XML version header, but the
factorypath document contains no version header at all (shown here on the
empty entry list, where the classpath document does contain one). -/
theorem C4_version_header_counterexample :
    ¬ ("<?xml".data <:+: (factorypath_xml []).data)
      ∧ ("<?xml".data <:+: (classpath_xml []).data) :=
  ⟨by decide, by decide⟩

/-- Claim C4, amended: both assemblers join the two-space-indented rendered
entries with newline separators inside a fixed envelope; the classpath
envelope begins with an XML version header, while the factorypath envelope
has no version header. -/
theorem C4_assembler_envelopes (ce : List ClasspathEntry) (fe : List FactorypathEntry) :
    classpath_xml ce
        = xmlVersionHeader ++ "<classpath>\n"
          ++ String.intercalate "\n"
              (ce.map fun e => "  " ++ classpath_entry_xml e.kind e.path)
          ++ "\n</classpath>"
      ∧ ("<?xml".data <+: (classpath_xml ce).data)
      ∧ factorypath_xml fe
          = "<factorypath>\n"
            ++ String.intercalate "\n"
                (fe.map fun e => "  " ++ factorypath_entry_xml e.kind e.entry_id)
            ++ "\n</factorypath>"
      ∧ ¬ ("<?xml".data <+: (factorypath_xml fe).data) := by
  have hlit : ("<?xml version=\"1.0\" encoding=\"UTF-8\"?>\n<classpath>\n" : String)
      = xmlVersionHeader ++ "<classpath>\n" := by decide
  have hpre0 : ("<?xml" : String).data
      <+: ("<?xml version=\"1.0\" encoding=\"UTF-8\"?>\n<classpath>\n" : String).data := by
    decide
  refine ⟨?_, ?_, rfl, ?_⟩
  · simp only [classpath_xml]
    rw [hlit, String.append_assoc]
  · simp only [classpath_xml, String.data_append]
    exact (hpre0.trans (List.prefix_append _ _)).trans (List.prefix_append _ _)
  · intro hpre
    have hf : ("<factorypath>\n" : String).data
        = '<' :: 'f' :: ("actorypath>\n" : String).data := rfl
    have hx : ("<?xml" : String).data = '<' :: '?' :: ("xml" : String).data := rfl
    simp only [factorypath_xml, String.data_append, hf, hx, List.cons_append] at hpre
    exact absurd (List.cons_prefix_cons.mp (List.cons_prefix_cons.mp hpre).2).1
      (by decide)

/-- Claim C5: with identical inputs (same oracle, same arguments) and an
already-existing `.settings` directory, the first run succeeds, and the
second run raises nothing and reproduces exactly the same five write events
and the same final filesystem, so every output file's content is
byte-identical across the two runs. -/
theorem C5_main_idempotent (oracle : String → List String) (argv : List String)
    (fs0 : FS) (w g b : String) (tw tg tb : List String)
    (hw : oracle "workspace" = w :: tw)
    (hg : oracle "bazel-genfiles" = g :: tg)
    (hb : oracle "bazel-bin" = b :: tb)
    (hs : ".settings" ∈ fs0.dirs) :
    ∃ fs1 trace,
      mainRun oracle argv fs0 = Except.ok (fs1, trace)
        ∧ mainRun oracle argv fs1 = Except.ok (fs1, trace) := by
  refine ⟨mainFS (pyStrip w) (pyStrip g) (pyStrip b) (projectNameOf argv) fs0,
    mainTrace (pyStrip w) (pyStrip g) (pyStrip b) (projectNameOf argv),
    mainRun_eq oracle argv fs0 w g b tw tg tb hw hg hb, ?_⟩
  rw [mainRun_eq oracle argv _ w g b tw tg tb hw hg hb,
    mainFS_idem (pyStrip w) (pyStrip g) (pyStrip b) (projectNameOf argv) fs0 hs]

/-- Witness for the C5 theorem at a concrete oracle, argument vector and
starting filesystem. -/
theorem C5_main_idempotent_witness :
    ∃ fs1 trace,
      mainRun wsOracle ["setup_eclipse.py"] wsFS = Except.ok (fs1, trace)
        ∧ mainRun wsOracle ["setup_eclipse.py"] fs1 = Except.ok (fs1, trace) :=
  C5_main_idempotent wsOracle ["setup_eclipse.py"] wsFS "/ws" "/ws" "/ws" [] [] []
    rfl rfl rfl (by decide)

/-- Claim C6: the orchestrator uses the first command-line argument as the
project name when present and the fixed default "domain-registry"
otherwise; in both cases the second write event is the `.project` write
with `build_project` of that name as content, and the default content
contains the fixed default name. -/
theorem C6_project_name (oracle : String → List String) (fs0 : FS)
    (w g b argv0 name : String) (tw tg tb rest : List String)
    (hw : oracle "workspace" = w :: tw)
    (hg : oracle "bazel-genfiles" = g :: tg)
    (hb : oracle "bazel-bin" = b :: tb) :
    (∃ fsA trace,
      mainRun oracle (argv0 :: name :: rest) fs0 = Except.ok (fsA, trace)
        ∧ trace.get? 1 = some (pathJoin (pyStrip w) ".project", build_project name))
      ∧ (∃ fsB trace,
          mainRun oracle [argv0] fs0 = Except.ok (fsB, trace)
            ∧ trace.get? 1
                = some (pathJoin (pyStrip w) ".project", build_project "domain-registry"))
      ∧ ("<name>domain-registry</name>".data <:+: (build_project "domain-registry").data) :=
  ⟨⟨_, _, mainRun_eq oracle (argv0 :: name :: rest) fs0 w g b tw tg tb hw hg hb, rfl⟩,
   ⟨_, _, mainRun_eq oracle [argv0] fs0 w g b tw tg tb hw hg hb, rfl⟩,
   by decide⟩

/-- Witness for the C6 theorem at a concrete oracle and argument vectors. -/
theorem C6_project_name_witness :
    (∃ fsA trace,
      mainRun wsOracle ["setup_eclipse.py", "foo"] wsFS = Except.ok (fsA, trace)
        ∧ trace.get? 1 = some (pathJoin "/ws" ".project", build_project "foo"))
      ∧ (∃ fsB trace,
          mainRun wsOracle ["setup_eclipse.py"] wsFS = Except.ok (fsB, trace)
            ∧ trace.get? 1
                = some (pathJoin "/ws" ".project", build_project "domain-registry")) := by
  have h := C6_project_name wsOracle wsFS "/ws" "/ws" "/ws" "setup_eclipse.py" "foo"
    [] [] [] [] rfl rfl rfl
  have hp : pyStrip "/ws" = "/ws" := by decide
  rw [hp] at h
  exact ⟨h.1, h.2.1⟩

/-- Claim C7: `build_project name` is the fixed template around the single
substitution point: a fixed prefix ending in `<name>`, then the name, then a
fixed suffix starting with `</name>`; hence outputs for different names are
byte-identical outside the substitution point, and `build_project "foo"`
contains the literal substring `<name>foo</name>`. -/
theorem C7_build_project_template (name : String) :
    build_project name = projectTemplatePre ++ name ++ projectTemplatePost
      ∧ ("<name>".data <:+ projectTemplatePre.data)
      ∧ ("</name>".data <+: projectTemplatePost.data)
      ∧ ("<name>foo</name>".data <:+: (build_project "foo").data) :=
  ⟨rfl, by decide, by decide, by decide⟩

/-- Claim C10: two runs that differ only in the project-name argument write
to the same five paths; deleting the second write event (the `.project`
write) from each trace leaves identical traces, and the `.project` contents
are `build_project` of the respective names. -/
theorem C10_only_project_differs (oracle : String → List String) (fs0 : FS)
    (w g b argv0 n1 n2 : String) (tw tg tb rest : List String)
    (hw : oracle "workspace" = w :: tw)
    (hg : oracle "bazel-genfiles" = g :: tg)
    (hb : oracle "bazel-bin" = b :: tb) :
    ∃ fs1 t1 fs2 t2,
      mainRun oracle (argv0 :: n1 :: rest) fs0 = Except.ok (fs1, t1)
        ∧ mainRun oracle (argv0 :: n2 :: rest) fs0 = Except.ok (fs2, t2)
        ∧ t1.map Prod.fst = t2.map Prod.fst
        ∧ t1.length = 5
        ∧ t1.eraseIdx 1 = t2.eraseIdx 1
        ∧ t1.get? 1 = some (pathJoin (pyStrip w) ".project", build_project n1)
        ∧ t2.get? 1 = some (pathJoin (pyStrip w) ".project", build_project n2) :=
  ⟨_, _, _, _,
    mainRun_eq oracle (argv0 :: n1 :: rest) fs0 w g b tw tg tb hw hg hb,
    mainRun_eq oracle (argv0 :: n2 :: rest) fs0 w g b tw tg tb hw hg hb,
    rfl, rfl, rfl, rfl, rfl⟩

/-- Witness for the C10 theorem at a concrete oracle and argument vectors. -/
theorem C10_only_project_differs_witness :
    ∃ fs1 t1 fs2 t2,
      mainRun wsOracle ["setup_eclipse.py", "alpha"] wsFS = Except.ok (fs1, t1)
        ∧ mainRun wsOracle ["setup_eclipse.py", "beta"] wsFS = Except.ok (fs2, t2)
        ∧ t1.map Prod.fst = t2.map Prod.fst
        ∧ t1.length = 5
        ∧ t1.eraseIdx 1 = t2.eraseIdx 1
        ∧ t1.get? 1 = some (pathJoin "/ws" ".project", build_project "alpha")
        ∧ t2.get? 1 = some (pathJoin "/ws" ".project", build_project "beta") := by
  have h := C10_only_project_differs wsOracle wsFS "/ws" "/ws" "/ws" "setup_eclipse.py"
    "alpha" "beta" [] [] [] [] rfl rfl rfl
  have hp : pyStrip "/ws" = "/ws" := by decide
  rw [hp] at h
  exact h

/-- Witness for the C2 theorem at a concrete one-entry list. -/
theorem C2_document_shape_witness :
    classpath_xml [⟨"con", "X"⟩]
        = "<?xml version=\"1.0\" encoding=\"UTF-8\"?>\n<classpath>\n"
          ++ String.intercalate "\n"
              ((([⟨"con", "X"⟩] : List ClasspathEntry).map
                  fun e => classpath_entry_xml e.kind e.path).map
                fun line => "  " ++ line)
          ++ "\n</classpath>" :=
  (C2_document_shape [⟨"con", "X"⟩] []).1

/-- Witness for the amended C4 theorem at the empty entry list. -/
theorem C4_assembler_envelopes_witness :
    ¬ ("<?xml".data <+: (factorypath_xml []).data) :=
  (C4_assembler_envelopes [] []).2.2.2

/-- Witness for the C7 theorem at the concrete name "foo". -/
theorem C7_build_project_template_witness :
    build_project "foo" = projectTemplatePre ++ "foo" ++ projectTemplatePost :=
  (C7_build_project_template "foo").1
